/-
  Verification of the host-telemetry route (src/app/api/system/route.ts).

  The TypeScript route is shallowly embedded below.  JS strings are Lean
  `String`s (manipulated through small js-faithful helpers on `List Char`),
  JS numbers are `ℚ` (exact arithmetic; the IEEE artifacts NaN/Infinity do
  not translate, divergences are noted where they matter), and the ambient
  world (filesystem, `os` module, subprocesses) is a `SysState` record so
  that every claim can be quantified over all input states.
-/
import Mathlib

set_option maxRecDepth 8000

/-! ## JS string primitives -/

/-- JS `\s` whitespace class (the ASCII part; all inputs in scope are ASCII). -/
def wsChar (c : Char) : Bool :=
  c = ' ' ∨ c = '\t' ∨ c = '\n' ∨ c = '\r' ∨ c = '\x0b' ∨ c = '\x0c'

/-- Drop leading and trailing whitespace from a char list. -/
def jsTrimL (cs : List Char) : List Char :=
  ((cs.dropWhile wsChar).reverse.dropWhile wsChar).reverse

/-- JS `String.prototype.trim`. -/
def jsTrim (s : String) : String := .mk (jsTrimL s.data)

/-- Split a char list at every character satisfying `p` (JS `split` with a
single-character class: keeps empty pieces). -/
def splitAtP (p : Char → Bool) : List Char → List Char → List (List Char)
  | [], acc => [acc.reverse]
  | c :: cs, acc =>
    if p c then acc.reverse :: splitAtP p cs [] else splitAtP p cs (c :: acc)

/-- JS `s.split(sep)` for a one-character separator. -/
def jsSplitChar (sep : Char) (s : String) : List String :=
  (splitAtP (fun c => c = sep) s.data []).map String.mk

/-- JS `s.split("\n")`. -/
def splitNl (s : String) : List String := jsSplitChar '\n' s

/-- Drop empty pieces except a final one (helper for `dropMidEmpty`). -/
def dropMidTail : List (List Char) → List (List Char)
  | [] => []
  | [y] => [y]
  | y :: z :: rest =>
    if y = [] then dropMidTail (z :: rest) else y :: dropMidTail (z :: rest)

/-- Remove the empty pieces that sit strictly between the first and the last
piece (turns a split-on-single-whitespace into a split-on-whitespace-runs). -/
def dropMidEmpty : List (List Char) → List (List Char)
  | [] => []
  | x :: rest => x :: dropMidTail rest

/-- JS `s.split(/\s+/)`: separators are maximal whitespace runs; a leading or
trailing run still contributes an empty piece, interior runs never do. -/
def splitWsJS (s : String) : List String :=
  (dropMidEmpty (splitAtP wsChar s.data [])).map String.mk

/-- Does `pat` occur at the head of `l`? -/
def leadMatch : List Char → List Char → Bool
  | [], _ => true
  | _ :: _, [] => false
  | p :: ps, c :: cs => p = c ∧ leadMatch ps cs

/-- JS `s.startsWith(pat)`. -/
def strStarts (s pat : String) : Bool := leadMatch pat.data s.data

/-- JS `s.includes(pat)` (substring occurrence). -/
def occursIn (pat : List Char) : List Char → Bool
  | [] => pat = []
  | c :: cs => if leadMatch pat (c :: cs) then true else occursIn pat cs

/-- JS `s.includes(pat)` on strings. -/
def strIncludes (s pat : String) : Bool := occursIn pat.data s.data

/-- JS `s.toLowerCase()`. -/
def jsToLower (s : String) : String := .mk (s.data.map Char.toLower)

/-- Numeric value of a digit list (most significant first). -/
def digitsToNat (ds : List Char) : ℕ :=
  ds.foldl (fun a c => a * 10 + (c.toNat - 48)) 0

/-- First maximal run of decimal digits in a char list (JS `str.match(/(\d+)/)`). -/
def firstDigitRun : List Char → Option (List Char)
  | [] => none
  | c :: cs =>
    if c.isDigit then some ((c :: cs).takeWhile Char.isDigit)
    else firstDigitRun cs

/-- JS `Math.min` on two ordinary numbers (ℚ is total-ordered, so a plain
conditional; defined explicitly to keep kernel evaluation possible). -/
def jsMin (a b : ℚ) : ℚ := if a ≤ b then a else b

/-- JS `Math.max` on two ordinary numbers. -/
def jsMax (a b : ℚ) : ℚ := if a ≤ b then b else a

/-- JS `+` on numbers.  (Defined through `Rat.divInt` on raw numerators and
denominators rather than `Rat.add`, which the library seals against
unfolding; `jsAdd_eq` identifies it with `+`.) -/
def jsAdd (a b : ℚ) : ℚ := Rat.divInt (a.num * b.den + b.num * a.den) (a.den * b.den)

/-- JS `-` on numbers (see `jsAdd`). -/
def jsSub (a b : ℚ) : ℚ := Rat.divInt (a.num * b.den - b.num * a.den) (a.den * b.den)

/-- JS `*` on numbers (see `jsAdd`). -/
def jsMul (a b : ℚ) : ℚ := Rat.divInt (a.num * b.num) (a.den * b.den)

/-- JS `/` on numbers (see `jsAdd`; division by zero yields 0 here where JS
yields NaN or ±Infinity — theorems over states where a JS division by zero
can occur carry hypotheses ruling it out). -/
def jsDiv (a b : ℚ) : ℚ := Rat.divInt (a.num * b.den) (a.den * b.num)

/-- `jsAdd` is addition. -/
theorem jsAdd_eq (a b : ℚ) : jsAdd a b = a + b := by
  have ha : ((a.den : ℚ)) ≠ 0 := Nat.cast_ne_zero.mpr a.den_nz
  have hb : ((b.den : ℚ)) ≠ 0 := Nat.cast_ne_zero.mpr b.den_nz
  rw [jsAdd, Rat.divInt_eq_div]
  push_cast
  conv_rhs => rw [← Rat.num_div_den a, ← Rat.num_div_den b]
  field_simp

/-- `jsSub` is subtraction. -/
theorem jsSub_eq (a b : ℚ) : jsSub a b = a - b := by
  have ha : ((a.den : ℚ)) ≠ 0 := Nat.cast_ne_zero.mpr a.den_nz
  have hb : ((b.den : ℚ)) ≠ 0 := Nat.cast_ne_zero.mpr b.den_nz
  rw [jsSub, Rat.divInt_eq_div]
  push_cast
  conv_rhs => rw [← Rat.num_div_den a, ← Rat.num_div_den b]
  field_simp
  ring

/-- `jsMul` is multiplication. -/
theorem jsMul_eq (a b : ℚ) : jsMul a b = a * b := by
  have ha : ((a.den : ℚ)) ≠ 0 := Nat.cast_ne_zero.mpr a.den_nz
  have hb : ((b.den : ℚ)) ≠ 0 := Nat.cast_ne_zero.mpr b.den_nz
  rw [jsMul, Rat.divInt_eq_div]
  push_cast
  conv_rhs => rw [← Rat.num_div_den a, ← Rat.num_div_den b]
  field_simp

/-- `jsDiv` is division (both sides make a zero divisor yield 0). -/
theorem jsDiv_eq (a b : ℚ) : jsDiv a b = a / b := by
  by_cases hb : b = 0
  · subst hb
    rw [jsDiv]
    simp
  · have ha : ((a.den : ℚ)) ≠ 0 := Nat.cast_ne_zero.mpr a.den_nz
    have hbd : ((b.den : ℚ)) ≠ 0 := Nat.cast_ne_zero.mpr b.den_nz
    have hbn : ((b.num : ℚ)) ≠ 0 := by
      exact_mod_cast Rat.num_ne_zero.mpr hb
    rw [jsDiv, Rat.divInt_eq_div]
    push_cast
    conv_rhs => rw [← Rat.num_div_den a, ← Rat.num_div_den b]
    rw [div_div_div_comm]
    field_simp
    exact Or.inl (mul_comm _ _)

/-- JS `parseFloat`: optional sign, digits with optional fraction and optional
exponent; `none` models NaN.  (The literal "Infinity" and exponent overflow
produce IEEE infinities, which have no image in `ℚ`; no input in scope uses
them.) -/
def jsParseFloat (s : String) : Option ℚ :=
  let cs0 := s.data.dropWhile wsChar
  let sgn : ℚ := if cs0.head? = some '-' then -1 else 1
  let cs := if cs0.head? = some '-' ∨ cs0.head? = some '+' then cs0.drop 1 else cs0
  let ipart := cs.takeWhile Char.isDigit
  let cs2 := cs.drop ipart.length
  let fpart := if cs2.head? = some '.' then (cs2.drop 1).takeWhile Char.isDigit else []
  let cs3 := if cs2.head? = some '.' then (cs2.drop 1).drop fpart.length else cs2
  if ipart = [] ∧ fpart = [] then none
  else
    let mant : ℚ :=
      jsAdd (digitsToNat ipart : ℚ) (jsDiv (digitsToNat fpart : ℚ) ((10 ^ fpart.length : ℕ) : ℚ))
    let ex : ℤ :=
      if cs3.head? = some 'e' ∨ cs3.head? = some 'E' then
        let cs4 := cs3.drop 1
        let es : ℤ := if cs4.head? = some '-' then -1 else 1
        let cs5 := if cs4.head? = some '-' ∨ cs4.head? = some '+' then cs4.drop 1 else cs4
        let eds := cs5.takeWhile Char.isDigit
        if eds = [] then 0 else es * (digitsToNat eds : ℕ)
      else 0
    let scaled : ℚ :=
      if 0 ≤ ex then jsMul mant ((10 ^ ex.toNat : ℕ) : ℚ)
      else jsDiv mant ((10 ^ (-ex).toNat : ℕ) : ℚ)
    some (jsMul sgn scaled)

/-- Hex digit predicate (JS `[0-9a-fA-F]`). -/
def hexDig (c : Char) : Bool :=
  c.isDigit ∨ ('a' ≤ c ∧ c ≤ 'f') ∨ ('A' ≤ c ∧ c ≤ 'F')

/-- Value of one hex digit. -/
def hexVal (c : Char) : ℕ :=
  if c.isDigit then c.toNat - 48
  else if 'a' ≤ c ∧ c ≤ 'f' then c.toNat - 87
  else if 'A' ≤ c ∧ c ≤ 'F' then c.toNat - 55
  else 0

/-- JS `parseInt(s)` with no radix argument: optional sign, then either a
`0x`-prefixed hex numeral or a decimal digit run; `none` models NaN. -/
def jsParseInt (s : String) : Option ℤ :=
  let cs0 := s.data.dropWhile wsChar
  let sgn : ℤ := if cs0.head? = some '-' then -1 else 1
  let cs := if cs0.head? = some '-' ∨ cs0.head? = some '+' then cs0.drop 1 else cs0
  if cs.head? = some '0' ∧ ((cs.drop 1).head? = some 'x' ∨ (cs.drop 1).head? = some 'X') then
    let hs := (cs.drop 2).takeWhile hexDig
    if hs = [] then none
    else some (sgn * ((hs.foldl (fun a c => a * 16 + hexVal c) 0 : ℕ) : ℤ))
  else
    let ds := cs.takeWhile Char.isDigit
    if ds = [] then none else some (sgn * ((digitsToNat ds : ℕ) : ℤ))

/-- `parseFloat(x) || 0` applied to an optional field (`undefined` parses to
NaN; NaN and 0 both collapse to 0). -/
def pf0 (o : Option String) : ℚ :=
  match o with
  | some t => (jsParseFloat t).getD 0
  | none => 0

/-- JS `s.replace("%", "")`: removes the first occurrence only. -/
def removeFirstPct : List Char → List Char
  | [] => []
  | c :: cs => if c = '%' then cs else c :: removeFirstPct cs

/-- First element of a list satisfying `p`. -/
def firstPred {α} (p : α → Bool) : List α → Option α
  | [] => none
  | a :: l => if p a then some a else firstPred p l

/-- First `some` produced by `f` along a list. -/
def firstSome {α β} (f : α → Option β) : List α → Option β
  | [] => none
  | a :: l => match f a with | some b => some b | none => firstSome f l

/-! ## Regex machinery used by the route -/

/-- Greedy match of `\d{1,3}\.\d{1,3}\.\d{1,3}\.\d{1,3}` starting exactly at
the head of the list: each of the first three digit groups must be a maximal
run of 1–3 digits immediately followed by `.` (a run of 4+ digits cannot
match, as JS backtracking still meets a digit where `\.` is required); the
last group greedily takes up to 3 digits.  Returns the matched characters and
the remainder. -/
def matchQuadAt (cs : List Char) : Option (List Char × List Char) :=
  let d1 := cs.takeWhile Char.isDigit
  if 1 ≤ d1.length ∧ d1.length ≤ 3 then
    match cs.drop d1.length with
    | '.' :: r1 =>
      let d2 := r1.takeWhile Char.isDigit
      if 1 ≤ d2.length ∧ d2.length ≤ 3 then
        match r1.drop d2.length with
        | '.' :: r2 =>
          let d3 := r2.takeWhile Char.isDigit
          if 1 ≤ d3.length ∧ d3.length ≤ 3 then
            match r2.drop d3.length with
            | '.' :: r3 =>
              let d4run := r3.takeWhile Char.isDigit
              if d4run ≠ [] then
                let d4 := d4run.take 3
                some (d1 ++ '.' :: d2 ++ '.' :: d3 ++ '.' :: d4, r3.drop d4.length)
              else none
            | _ => none
          else none
        | _ => none
      else none
    | _ => none
  else none

/-- `matchAll` driver: scan left to right, restarting after each match
(`fuel` bounds the recursion; it is called with the list length). -/
def scanQuadsAux : ℕ → List Char → List String
  | 0, _ => []
  | _ + 1, [] => []
  | fuel + 1, c :: cs =>
    match matchQuadAt (c :: cs) with
    | some (m, rest) => String.mk m :: scanQuadsAux fuel rest
    | none => scanQuadsAux fuel cs

/-- JS `Array.from(line.matchAll(/(\d{1,3}\.\d{1,3}\.\d{1,3}\.\d{1,3})/g))`. -/
def scanQuads (s : String) : List String := scanQuadsAux s.data.length s.data

/-- The dotted-quad sub-match of `/inet\s+(\d{1,3}\.…)/` when the whole
pattern matches at the head of the list. -/
def inetAt (cs : List Char) : Option String :=
  if leadMatch ['i', 'n', 'e', 't'] cs then
    let r := cs.drop 4
    let ws := r.takeWhile wsChar
    if ws ≠ [] then
      match matchQuadAt (r.drop ws.length) with
      | some (m, _) => some (String.mk m)
      | none => none
    else none
  else none

/-- JS `str.match(/inet\s+(\d{1,3}\.\d{1,3}\.\d{1,3}\.\d{1,3})/)`: the first
position where the whole pattern matches wins. -/
def matchInetAux : ℕ → List Char → Option String
  | 0, _ => none
  | _ + 1, [] => none
  | fuel + 1, c :: cs =>
    match inetAt (c :: cs) with
    | some ip => some ip
    | none => matchInetAux fuel cs

/-- First `inet <quad>` occurrence in a string. -/
def matchInet (s : String) : Option String := matchInetAux s.data.length s.data

/-- Anchored JS test `ip.match(/^\d{1,3}\.\d{1,3}\.\d{1,3}\.\d{1,3}$/)`:
exactly four dot-separated groups of 1–3 digits. -/
def isDottedQuad (ip : String) : Bool :=
  let ps := jsSplitChar '.' ip
  ps.length = 4 ∧ ps.all fun p => 1 ≤ p.length ∧ p.length ≤ 3 ∧ p.data.all Char.isDigit

/-- The route's Docker filter: `parseInt` of the first two dot-fields, reject
when the first is 172 and the second is in 16…31 (NaN comparisons are false,
matching JS). -/
def isDockerIP (ip : String) : Bool :=
  let ps := jsSplitChar '.' ip
  match jsParseInt (ps.getD 0 ""), jsParseInt (ps.getD 1 "") with
  | some a, some b => a = 172 ∧ 16 ≤ b ∧ b ≤ 31
  | _, _ => false

/-- The spec's container-bridge range on dotted-quads: a well-formed
dotted-quad lying in 172.16.0.0/12. -/
def specBridgeRange (ip : String) : Bool :=
  isDottedQuad ip &&
    match jsParseInt ((jsSplitChar '.' ip).getD 0 ""), jsParseInt ((jsSplitChar '.' ip).getD 1 "") with
    | some a, some b => decide (a = 172 ∧ 16 ≤ b ∧ b ≤ 31)
    | _, _ => false

/-- The spec's loopback range on dotted-quads: first octet 127. -/
def specLoopbackRange (ip : String) : Bool :=
  isDottedQuad ip ∧ jsParseInt ((jsSplitChar '.' ip).getD 0 "") = some 127

/-! ## The ambient world: filesystem, `os` module, subprocesses -/

/-- What the filesystem holds at one path, as seen through `fs.existsSync`,
`fs.statSync`, `stats.isFile()` and `fs.readFileSync`:
`absent` — `existsSync` is false; `dir` — exists but `isFile()` is false;
`statError` — exists but `statSync` throws; `file c readable` — a regular
file whose read yields `c`, or throws when `readable` is false. -/
inductive FileNode where
  | absent
  | dir
  | statError
  | file (content : String) (readable : Bool)
deriving DecidableEq

/-- One entry of `os.networkInterfaces()`. -/
structure IfAddr where
  address : String
  family : String
  internal : Bool
deriving DecidableEq

/-- The full input state a request sees: the filesystem (covering the
`/proc/1/root` escape, the `/host` bind mount and the container's own files),
the availability and behaviour of `nsenter` runs, the container-local `os`
module values, `fs.statfsSync` (as `(blocks, bavail, bsize)`, `none` =
throws) and the output of `df -h /` (`none` = throws). -/
structure SysState where
  fsNode : String → FileNode
  nsenterWhich : Bool
  nsenterRun : String → Option String
  osCpus : List String
  osTotalmem : ℕ
  osFreemem : ℕ
  osLoadavg : ℚ × ℚ × ℚ
  netIfs : List (String × List IfAddr)
  statfs : String → Option (ℕ × ℕ × ℕ)
  dfOut : Option String

/-- `fs.existsSync`. -/
def existsSync (s : SysState) (p : String) : Bool :=
  match s.fsNode p with
  | .absent => false
  | _ => true

/-- `fs.statSync` under a `try`: `ok isFile` or a thrown error. -/
def statSync (s : SysState) (p : String) : Except Unit Bool :=
  match s.fsNode p with
  | .absent => .error ()
  | .dir => .ok false
  | .statError => .error ()
  | .file _ _ => .ok true

/-- `fs.readFileSync` under a `try`. -/
def readFileSync (s : SysState) (p : String) : Except Unit String :=
  match s.fsNode p with
  | .file c true => .ok c
  | _ => .error ()

/-! ## readHostFile (route.ts lines 17–78) -/

/-- `isHostMounted()` (lines 10–14). -/
def isHostMounted (s : SysState) : Bool :=
  existsSync s "/host/proc" ∧ existsSync s "/host/sys" ∧ existsSync s "/host/etc"

/-- One guarded tier of `readHostFile`: existence check, `statSync` (a throw
is caught and the tier is abandoned), `isFile()` check, `readFileSync` (a
throw is caught likewise), then the `content && content.trim().length > 0`
acceptance; a successful tier returns `content.trim()`. -/
def tierRead (s : SysState) (p : String) : Option String :=
  if existsSync s p then
    match statSync s p with
    | .error _ => none
    | .ok isF =>
      if isF then
        match readFileSync s p with
        | .error _ => none
        | .ok content =>
          if content ≠ "" ∧ jsTrim content ≠ "" then some (jsTrim content) else none
      else none
  else none

/-- The three tiers of `readHostFile` without the fallback: the `/proc/1/root`
escape (guarded by `existsSync "/proc/1/root"`), the `/host` bind mount
(guarded by `isHostMounted`), then the container's own path. -/
def readHostFileOpt (s : SysState) (path : String) : Option String :=
  match (if existsSync s "/proc/1/root" then tierRead s ("/proc/1/root" ++ path) else none) with
  | some c => some c
  | none =>
    match (if isHostMounted s then tierRead s ("/host" ++ path) else none) with
    | some c => some c
    | none => tierRead s path

/-- `readHostFile(path, fallback)`: the three tiers, else `fallback()`. -/
def readHostFile (s : SysState) (path : String) (fb : String) : String :=
  (readHostFileOpt s path).getD fb

/-! ## getHostCPUInfo (route.ts lines 81–161) -/

/-- Result type of `getHostCPUInfo`. -/
structure CPUInfo where
  model : String
  count : ℕ
deriving DecidableEq

/-- The container-local fallback text handed to `readHostFile` for
`/proc/cpuinfo` (line 82–85). -/
def cpuinfoFallback (s : SysState) : String :=
  match s.osCpus with
  | [] => ""
  | m :: _ => "model name\t: " ++ m ++ "\nprocessor\t: 0"

/-- Anchored test of `/^model\s+name\s*[:=]/i` on an already-lowercased char
list (the `/i` flag is handled by lowercasing first; the pattern's own
letters are lowercase). -/
def regexModelNameCore (cs : List Char) : Bool :=
  if leadMatch ['m','o','d','e','l'] cs then
    let r := cs.drop 5
    let ws := r.takeWhile wsChar
    if ws ≠ [] then
      let r2 := r.drop ws.length
      if leadMatch ['n','a','m','e'] r2 then
        let r3 := (r2.drop 4).dropWhile wsChar
        match r3.head? with
        | some ':' => true
        | some '=' => true
        | _ => false
      else false
    else false
  else false

/-- JS `line.match(/^model\s+name\s*[:=]/i)` as a boolean test. -/
def regexModelNameAt (line : String) : Bool :=
  regexModelNameCore (line.data.map Char.toLower)

/-- First `find` predicate for the model line (line 91–96): lowercase includes
"model name", or includes both "model" and "name", or the anchored regex. -/
def modelLinePred1 (line : String) : Bool :=
  let lower := jsToLower line
  strIncludes lower "model name" ∨
    (strIncludes lower "model" ∧ strIncludes lower "name") ∨
    regexModelNameAt line

/-- ARM fallback predicate (line 104–110). -/
def modelLinePredArm (line : String) : Bool :=
  strIncludes line "Hardware" ∨ strIncludes line "Processor" ∨
    strIncludes line "CPU implementer"

/-- The chained `find`s selecting the model line (lines 91–110): the primary
predicate, then the anchored regex alone, then the ARM fallback. -/
def findModelLine (lines : List String) : Option String :=
  match firstPred modelLinePred1 lines with
  | some l => some l
  | none =>
    match firstPred regexModelNameAt lines with
    | some l => some l
    | none => firstPred modelLinePredArm lines

/-- Capture group of `/[:=]\s*(.+)/`: the engine matches at the first `:` or
`=` that is followed by at least one character; the group is everything after
it (with `\s*` having eaten leading whitespace, or — when the remainder is
all whitespace — one backtracked whitespace char).  `computeModel` only uses
the group through `.trim()`, and on the newline-free lines this is applied to
(elements of a split on `"\n"`) the trimmed group is exactly the trimmed
remainder, which is what this returns. -/
def afterColonEq : List Char → Option (List Char)
  | [] => none
  | c :: rest =>
    if (c = ':' ∨ c = '=') ∧ rest ≠ [] then some rest else afterColonEq rest

/-- JS `modelLine.split(/[:=]/)`. -/
def splitColonEq (s : String) : List String :=
  (splitAtP (fun c => c = ':' ∨ c = '=') s.data []).map String.mk

/-- Model extraction from the found line (lines 112–127): regex capture
(trimmed), else split on `[:=]` and rejoin with `":"`, else the whole line
trimmed; `"Unknown"` when no line was found. -/
def computeModel : Option String → String
  | none => "Unknown"
  | some modelLine =>
    match afterColonEq modelLine.data with
    | some rest => jsTrim (String.mk rest)
    | none =>
      let parts := splitColonEq modelLine
      if 1 < parts.length then jsTrim (String.intercalate ":" (parts.drop 1))
      else jsTrim modelLine

/-- Anchored test of `/^processor\s*[:=]/i` on a lowercased char list. -/
def regexProcColonCore (cs : List Char) : Bool :=
  if leadMatch ['p','r','o','c','e','s','s','o','r'] cs then
    let r := (cs.drop 9).dropWhile wsChar
    match r.head? with
    | some ':' => true
    | some '=' => true
    | _ => false
  else false

/-- Anchored test of `/^processor\s+\d+/i` on a lowercased char list. -/
def regexProcNumCore (cs : List Char) : Bool :=
  if leadMatch ['p','r','o','c','e','s','s','o','r'] cs then
    let r := cs.drop 9
    let ws := r.takeWhile wsChar
    if ws ≠ [] then
      match (r.drop ws.length).head? with
      | some c => c.isDigit
      | none => false
    else false
  else false

/-- The processor-line filter (lines 130–134): trimmed line starts with
"processor" and matches `/^processor\s*[:=]/i` or `/^processor\s+\d+/i`. -/
def procLinePred (line : String) : Bool :=
  let t := jsTrim line
  strStarts t "processor" ∧
    (regexProcColonCore (t.data.map Char.toLower) ∨ regexProcNumCore (t.data.map Char.toLower))

/-- The filtered processor lines (line 130–134). -/
def processorLinesOf (lines : List String) : List String :=
  lines.filter procLinePred

/-- Processor count (lines 138–154): the number of processor lines, else a
`CPU(s)` line's first number, else the container's own core count. -/
def procCount (s : SysState) (lines : List String) : ℕ :=
  let c1 := (processorLinesOf lines).length
  if c1 = 0 then
    let c2 :=
      match firstPred (fun l => strIncludes (jsToLower l) "cpu(s)") lines with
      | some l =>
        match firstDigitRun l.data with
        | some ds => digitsToNat ds
        | none => 0
      | none => 0
    if c2 = 0 then s.osCpus.length else c2
  else c1

/-- `getHostCPUInfo()` (lines 81–161). -/
def getHostCPUInfo (s : SysState) : CPUInfo :=
  let cpuInfo := readHostFile s "/proc/cpuinfo" (cpuinfoFallback s)
  if cpuInfo ≠ "" then
    let lines := splitNl cpuInfo
    let model := computeModel (findModelLine lines)
    let count := procCount s lines
    { model := if model = "" then "Unknown" else model,
      count := if count = 0 then 1 else count }
  else
    match s.osCpus with
    | [] => { model := "Unknown", count := 0 }
    | m :: _ => { model := if m = "" then "Unknown" else m, count := s.osCpus.length }

/-! ## getHostMemory (route.ts lines 164–204) -/

/-- Result of `getHostMemory` (all three values are byte counts and, being
either `parseInt` of a digit run times 1024 or an `os` total, naturals). -/
structure MemVals where
  total : ℕ
  free : ℕ
  available : ℕ
deriving DecidableEq

/-- The fallback text for `/proc/meminfo` (lines 165–167), synthesized from
the container's own totals (`Math.floor(x/1024)` is natural division). -/
def memFallbackStr (s : SysState) : String :=
  "MemTotal: " ++ toString (s.osTotalmem / 1024) ++ " kB\nMemAvailable: " ++
    toString (s.osFreemem / 1024) ++ " kB\nMemFree: " ++ toString (s.osFreemem / 1024) ++ " kB"

/-- The resolved `/proc/meminfo` content. -/
def memContent (s : SysState) : String :=
  readHostFile s "/proc/meminfo" (memFallbackStr s)

/-- Parse of one meminfo field: the first line starting with `tag`, then its
first digit run (`line.match(/(\d+)/)`); `none` when the content guard fails,
the line is missing or has no digits. -/
def memParsedField (s : SysState) (tag : String) : Option ℕ :=
  if memContent s ≠ "" then
    match firstPred (fun l => strStarts l tag) (splitNl (memContent s)) with
    | some l => (firstDigitRun l.data).map digitsToNat
    | none => none
  else none

/-- `getHostMemory()` (lines 164–204): parsed kB values scaled to bytes,
container-local defaults otherwise. -/
def getHostMemory (s : SysState) : MemVals :=
  { total := ((memParsedField s "MemTotal").map (· * 1024)).getD s.osTotalmem,
    free := ((memParsedField s "MemFree").map (· * 1024)).getD s.osFreemem,
    available := ((memParsedField s "MemAvailable").map (· * 1024)).getD s.osFreemem }

/-- `memory.used` as assembled by the route (line 990): `total - available`,
computed in JS number arithmetic (may be negative). -/
def memUsedVal (s : SysState) : ℚ :=
  jsSub ((getHostMemory s).total : ℚ) ((getHostMemory s).available : ℚ)

/-! ## getHostLoadAvg and getHostCPUUsage (route.ts lines 279–356) -/

/-- `getHostLoadAvg()` (lines 279–294).  When every tier fails, the fallback
string is `os.loadavg().join(" ")`, which the very same parse (3 fields,
`parseFloat(x) || 0`) maps back to the three original values — JS `toString`
of a number round-trips through `parseFloat` — so that branch is embedded as
the state's load-average triple directly; likewise for the final
`return os.loadavg()`. -/
def getHostLoadAvg (s : SysState) : ℚ × ℚ × ℚ :=
  match readHostFileOpt s "/proc/loadavg" with
  | some la =>
    if la ≠ "" then
      let parts := splitWsJS la
      if 3 ≤ parts.length then
        (pf0 (parts.get? 0), pf0 (parts.get? 1), pf0 (parts.get? 2))
      else s.osLoadavg
    else s.osLoadavg
  | none => s.osLoadavg

/-- The resolved `/proc/stat` content (line 302; the fallback produces `""`). -/
def statContent (s : SysState) : String :=
  readHostFile s "/proc/stat" ""

/-- The `lines.find(line => line.startsWith("cpu "))` step under the
`if (stat && stat.length > 0)` guard (lines 304–306). -/
def findCpuLine (s : SysState) : Option String :=
  if statContent s ≠ "" then
    firstPred (fun l => strStarts l "cpu ") (splitNl (statContent s))
  else none

/-- Field `i` of the trimmed, whitespace-split cpu line, through
`parseFloat(parts[i]) || 0` (an out-of-range index is `undefined`, whose
parse is NaN, hence 0). -/
def cpuTickAt (line : String) (i : ℕ) : ℚ :=
  pf0 ((splitWsJS (jsTrim line)).get? i)

/-- The `/proc/stat` branch of `getHostCPUUsage` (lines 308–336): `some` of
the clamped busy ratio when it returns, `none` when control falls through to
the load-average fallback. -/
def cpuStatValue (s : SysState) : Option ℚ :=
  match findCpuLine s with
  | none => none
  | some cpuLine =>
    if 5 ≤ (splitWsJS (jsTrim cpuLine)).length then
      let user := cpuTickAt cpuLine 1
      let nice := cpuTickAt cpuLine 2
      let system := cpuTickAt cpuLine 3
      let idle := cpuTickAt cpuLine 4
      let iowait := cpuTickAt cpuLine 5
      let irq := cpuTickAt cpuLine 6
      let softirq := cpuTickAt cpuLine 7
      let steal := cpuTickAt cpuLine 8
      let totalIdle := jsAdd idle iowait
      let totalNonIdle := jsAdd (jsAdd (jsAdd (jsAdd (jsAdd user nice) system) irq) softirq) steal
      let total := jsAdd totalIdle totalNonIdle
      if 0 < total then some (jsMin (jsMax (jsMul (jsDiv totalNonIdle total) 100) 0) 100)
      else none
    else none

/-- The load-average fallback of `getHostCPUUsage` (lines 345–355):
`(loadavg[0] / count) * 100`, capped at 100 (no lower clamp). -/
def cpuLoadFallback (s : SysState) : ℚ :=
  jsMin (jsMul (jsDiv (getHostLoadAvg s).1 ((getHostCPUInfo s).count : ℚ)) 100) 100

/-- `getHostCPUUsage()` (lines 299–356). -/
def getHostCPUUsage (s : SysState) : ℚ :=
  (cpuStatValue s).getD (cpuLoadFallback s)

/-! ## execInHostNamespace (route.ts lines 422–454) -/

/-- The exact first nsenter command (line 463). -/
def cmdHostnameI : String := "hostname -i 2>/dev/null"

/-- The exact second nsenter command (line 490). -/
def cmdIpAddr : String :=
  "ip -4 addr show 2>/dev/null | grep 'inet ' | grep -v '127.0.0.1' | head -1"

/-- `execInHostNamespace(command)` (lines 422–454): `null` when `/proc/1` is
missing or `which nsenter` fails; otherwise the nsenter run's trimmed output,
or `null` on any failure (timeout, non-zero exit — all folded into the
state's `nsenterRun` returning `none`). -/
def execInHostNamespace (s : SysState) (cmd : String) : Option String :=
  if existsSync s "/proc/1" then
    if s.nsenterWhich then (s.nsenterRun cmd).map jsTrim
    else none
  else none

/-! ## getHostIP (route.ts lines 457–909) -/

/-- The private-range preference applied to a collected list (lines 607, 778,
857): first entry starting with `192.168.` or `10.`. -/
def privateOf (ips : List String) : Option String :=
  firstPred (fun ip => strStarts ip "192.168." ∨ strStarts ip "10.") ips

/-- "Return the preferred private address, else the first" applied to a
collected list; `none` when the list is empty. -/
def chooseIP (ips : List String) : Option String :=
  match ips with
  | [] => none
  | top :: _ => some ((privateOf ips).getD top)

/-- Method 0 (lines 460–485): `hostname -i` via nsenter; reject the literal
`127.0.0.1`, anything containing `::1`, non-dotted-quad first tokens and
Docker-range addresses (a rejection falls through, it does not return). -/
def method0 (s : SysState) : Option String :=
  match execInHostNamespace s cmdHostnameI with
  | none => none
  | some hostnameIP =>
    if hostnameIP ≠ "" ∧ hostnameIP ≠ "127.0.0.1" ∧ ¬ strIncludes hostnameIP "::1" then
      let firstIP := ((splitWsJS hostnameIP).get? 0).getD ""
      if firstIP ≠ "" ∧ isDottedQuad firstIP then
        if isDockerIP firstIP then none else some firstIP
      else none
    else none

/-- Method 0.1 (lines 488–516): `ip -4 addr show` via nsenter; first
`inet <quad>` capture, rejected if `127.0.0.1` or Docker-range. -/
def method01 (s : SysState) : Option String :=
  match execInHostNamespace s cmdIpAddr with
  | none => none
  | some ipOutput =>
    if ipOutput ≠ "" then
      match matchInet ipOutput with
      | some ip =>
        if ip ≠ "127.0.0.1" ∧ ¬ isDockerIP ip then some ip else none
      | none => none
    else none

/- Method 0.5 (lines 519–554) enumerates `/sys/class/net` and reads MAC
addresses, but only logs what it finds: it contributes nothing to the result
and every exception in it is caught, so it has no image in the embedding. -/

/-- The method-1 per-address acceptance (lines 574–601): all four dot-fields
parse to 0…255, not loopback (first octet 127), not `0.0.0.0` or
`255.255.255.255`, not Docker-range. -/
def fibAccept (ip : String) : Bool :=
  let ps := jsSplitChar '.' ip
  (ps.length = 4 ∧ ps.all fun p =>
      match jsParseInt p with
      | some n => decide (0 ≤ n ∧ n ≤ 255)
      | none => false) ∧
    ¬ (jsParseInt (ps.getD 0 "") = some 127) ∧
    ¬ (ip = "0.0.0.0" ∨ ip = "255.255.255.255") ∧
    ¬ isDockerIP ip

/-- The `localIPs` collection of method 1 (lines 565–602): every quad match
of every line, filtered by `fibAccept`, deduplicated in push order. -/
def fibCollect (ft : String) : List String :=
  (splitNl ft).foldl
    (fun acc line =>
      (scanQuads line).foldl
        (fun acc2 ip =>
          if fibAccept ip ∧ ip ∉ acc2 then acc2 ++ [ip] else acc2)
        acc)
    []

/-- Method 1 (lines 556–623): scan `/proc/net/fib_trie` for local addresses,
prefer a private-range one. -/
def method1 (fibTrie : String) : Option String :=
  if fibTrie ≠ "" then chooseIP (fibCollect fibTrie) else none

/-- Step 1 of method 2 (lines 641–656): first data row of `/proc/net/route`
with a non-loopback interface and destination `00000000`. -/
def findMainIface (lines : List String) : Option String :=
  firstSome
    (fun line =>
      let parts := splitWsJS (jsTrim line)
      if 3 ≤ parts.length then
        let iface := (parts.get? 0).getD ""
        let dest := (parts.get? 1).getD ""
        if iface ≠ "" ∧ iface ≠ "lo" ∧ dest = "00000000" then some iface else none
      else none)
    (lines.drop 1)

/-- Method 2.1 (lines 660–679): the interface's MAC, read from the first
existing of the three `sys/class/net` paths; a read failure (directory,
unreadable, stat error) is caught and leaves it `null`. -/
def readMAC (s : SysState) (mi : String) : Option String :=
  let p1 := "/proc/1/root/sys/class/net/" ++ mi ++ "/address"
  let p2 := "/host/sys/class/net/" ++ mi ++ "/address"
  let p3 := "/sys/class/net/" ++ mi ++ "/address"
  let chosen := if existsSync s p1 then p1 else if existsSync s p2 then p2 else p3
  if existsSync s chosen then
    match s.fsNode chosen with
    | .file c true => some (jsTrim c)
    | _ => none
  else none

/-- Method 2.2 (lines 681–718): first ARP row (after the header) whose device
is the main interface, whose first field is a dotted quad, whose MAC matches
when one was read, and which passes the `127.0.0.1`/`0.0.0.0`/Docker filter;
any failed check continues the loop. -/
def method22 (s : SysState) (mi : String) (mac : Option String) : Option String :=
  let arp := readHostFile s "/proc/net/arp" ""
  if arp ≠ "" then
    firstSome
      (fun line =>
        let parts := splitWsJS (jsTrim line)
        if 6 ≤ parts.length then
          let arpIP := (parts.get? 0).getD ""
          let arpMAC := (parts.get? 3).getD ""
          let dev := (parts.get? 5).getD ""
          if dev = mi then
            if arpIP ≠ "" ∧ isDottedQuad arpIP then
              if (match mac with | some m => decide (arpMAC ≠ m) | none => false) then none
              else if arpIP ≠ "127.0.0.1" ∧ arpIP ≠ "0.0.0.0" ∧ ¬ isDockerIP arpIP then
                some arpIP
              else none
            else none
          else none
        else none)
      ((splitNl arp).drop 1)
  else none

/-- Little-endian hex word to dotted decimal (lines 740–745): byte pairs are
read back to front with `parseInt(_, 16)` and joined with dots. -/
def hexToIPStr (h : List Char) : String :=
  let byteAt := fun (i : ℕ) =>
    hexVal (h.getD i '0') * 16 + hexVal (h.getD (i + 1) '0')
  toString (byteAt 6) ++ "." ++ toString (byteAt 4) ++ "." ++
    toString (byteAt 2) ++ "." ++ toString (byteAt 0)

/-- The per-cell acceptance of method 2.3 (lines 733–771), applied to route
columns 2–6 (column 7, the netmask, is skipped by the loop): an 8-hex-digit
non-zero word whose decoded address is not a `255.`-leading mask, not
`0.0.0.0`/`127.0.0.1`, not Docker-range. -/
def collect23 (lines : List String) (mi : String) : List String :=
  (lines.drop 1).foldl
    (fun acc line =>
      let parts := splitWsJS (jsTrim line)
      if 3 ≤ parts.length ∧ (parts.get? 0).getD "" = mi then
        (([2, 3, 4, 5, 6].filter (· < parts.length)).foldl
          (fun acc2 col =>
            let hexv := (parts.get? col).getD ""
            if hexv ≠ "" ∧ hexv.length = 8 ∧ hexv ≠ "00000000" ∧ hexv.data.all hexDig then
              let ip := hexToIPStr hexv.data
              if ip = "255.255.255.255" ∨ ip = "255.255.255.0" ∨ ip = "255.255.0.0" ∨
                  ip = "255.0.0.0" ∨ strStarts ip "255." then acc2
              else if ip ≠ "0.0.0.0" ∧ ip ≠ "127.0.0.1" ∧ ¬ isDockerIP ip ∧ ip ∉ acc2 then
                acc2 ++ [ip]
              else acc2
            else acc2)
          acc)
      else acc)
    []

/-- Method 2.3, first half (lines 720–785): candidate addresses decoded from
the route rows of the main interface, private-preferred. -/
def method23 (lines : List String) (mi : String) : Option String :=
  chooseIP (collect23 lines mi)

/-- Method 2.3, second half (lines 787–814): re-read `fib_trie` if the first
read was empty (`readHostFile` is deterministic, so this is the same value),
keep the lines mentioning the main interface, and return the first quad match
passing the `127.0.0.1`/`0.0.0.0`/Docker/`127.`-leading filter. -/
def fibTrieRe (s : SysState) (fibTrie : String) : String :=
  if fibTrie = "" then readHostFile s "/proc/net/fib_trie" "" else fibTrie

/-- Method 2.3, second half (lines 787–814), body. -/
def method23b (s : SysState) (fibTrie : String) (mi : String) : Option String :=
  if fibTrieRe s fibTrie ≠ "" then
    firstSome
      (fun line =>
        firstSome
          (fun ip =>
            if ip ≠ "127.0.0.1" ∧ ip ≠ "0.0.0.0" ∧ ¬ isDockerIP ip ∧ ¬ strStarts ip "127."
            then some ip else none)
          (scanQuads line))
      ((splitNl (fibTrieRe s fibTrie)).filter (fun line => strIncludes line mi))
  else none

/-- Method 2 (lines 625–816): find the default-route interface in
`/proc/net/route`, then try ARP, then the route hex columns, then the
interface's `fib_trie` lines. -/
def routeContent (s : SysState) : String := readHostFile s "/proc/net/route" ""

/-- Method 2 (lines 625–816), body. -/
def method2 (s : SysState) (fibTrie : String) : Option String :=
  if routeContent s ≠ "" then
    match findMainIface (splitNl (routeContent s)) with
    | none => none
    | some mi =>
      match method22 s mi (readMAC s mi) with
      | some ip => some ip
      | none =>
        match method23 (splitNl (routeContent s)) mi with
        | some ip => some ip
        | none => method23b s fibTrie mi
  else none

/-- Method 3 (lines 818–869): collect every ARP first-field that is a dotted
quad and passes the `127.0.0.1`/`0.0.0.0`/Docker filter (no deduplication),
private-preferred. -/
def method3 (s : SysState) : Option String :=
  let arp := readHostFile s "/proc/net/arp" ""
  if arp ≠ "" then
    chooseIP
      (((splitNl arp).drop 1).foldl
        (fun acc line =>
          let parts := splitWsJS (jsTrim line)
          if 1 ≤ parts.length then
            let ip := (parts.get? 0).getD ""
            if ip ≠ "" ∧ isDottedQuad ip ∧ ip ≠ "127.0.0.1" ∧ ip ≠ "0.0.0.0" ∧
                ¬ isDockerIP ip then acc ++ [ip]
            else acc
          else acc)
        [])
  else none

/-- The `os.networkInterfaces()` fallback (lines 877–904): first IPv4,
non-internal address that is neither Docker-range nor `127.0.0.1`. -/
def fallbackIP (s : SysState) : Option String :=
  firstSome
    (fun nif =>
      firstSome
        (fun (addr : IfAddr) =>
          if addr.family = "IPv4" ∧ addr.internal = false then
            if ¬ isDockerIP addr.address ∧ addr.address ≠ "127.0.0.1" then
              some addr.address
            else none
          else none)
        nif.2)
    s.netIfs

/-- `getHostIP()` (lines 457–909): methods 0, 0.1, (0.5,) 1, 2, 3 inside the
outer `try` (none of whose embedded steps can throw), then the
container-interface fallback, then the sentinel. -/
def fibTrieContent (s : SysState) : String := readHostFile s "/proc/net/fib_trie" ""

/-- The result of methods 0 through 3, first hit wins (the `fibTrie` read at
line 559 is shared by methods 1 and 2). -/
def triedIP (s : SysState) : Option String :=
  match method0 s with
  | some ip => some ip
  | none =>
    match method01 s with
    | some ip => some ip
    | none =>
      match method1 (fibTrieContent s) with
      | some ip => some ip
      | none =>
        match method2 s (fibTrieContent s) with
        | some ip => some ip
        | none => method3 s

/-- `getHostIP()` (lines 457–909), final shape. -/
def getHostIP (s : SysState) : String :=
  match triedIP s with
  | some ip => ip
  | none => (fallbackIP s).getD "Non disponible"

/-! ## getHostDiskUsage and the GET orchestrator (route.ts lines 912–1011) -/

/-- The statfs root (lines 916–919 and 973–976): the escape root when
`/proc/1/root` exists, else `/`. -/
def diskRootPath (s : SysState) : String :=
  if existsSync s "/proc/1/root" then "/proc/1/root/" else "/"

/-- `getHostDiskUsage()` (lines 912–956): `statfsSync` percentage (clamped)
when the call succeeds, else the `df -h /` `Use%` column (clamped) when it
parses, else 0.  In the statfs branch JS divides by `blocks*bsize` without a
zero guard (NaN when that is 0); `ℚ` division gives 0 there, and theorems
about this branch therefore carry a positive-total hypothesis. -/
def getHostDiskUsage (s : SysState) : ℚ :=
  match s.statfs (diskRootPath s) with
  | some (blocks, bavail, bsize) =>
    let total : ℚ := ((blocks * bsize : ℕ) : ℚ)
    let free : ℚ := ((bavail * bsize : ℕ) : ℚ)
    let used := jsSub total free
    jsMin (jsMax (jsMul (jsDiv used total) 100) 0) 100
  | none =>
    match s.dfOut with
    | some dfResult =>
      let lines := splitNl (jsTrim dfResult)
      if 2 ≤ lines.length then
        let parts := splitWsJS (jsTrim ((lines.get? 1).getD ""))
        if 5 ≤ parts.length then
          match jsParseFloat (String.mk (removeFirstPct ((parts.get? 4).getD "").data)) with
          | some u => jsMin (jsMax u 0) 100
          | none => 0
        else 0
      else 0
    | none => 0

/-- `diskStatTotalPos s = true` says the `statfsSync` call, when it succeeds,
reports a non-zero byte total — the condition under which the JS statfs
percentage is an ordinary number rather than NaN. -/
def diskStatTotalPos (s : SysState) : Bool :=
  match s.statfs (diskRootPath s) with
  | some (blocks, _, bsize) => decide (0 < blocks * bsize)
  | none => true

/-- The disk byte-count block of `GET` (lines 969–983): `(total, used, free)`
from `statfsSync`, zeros when it throws. -/
def diskStatTriple (s : SysState) : ℚ × ℚ × ℚ :=
  match s.statfs (diskRootPath s) with
  | some (blocks, bavail, bsize) =>
    (((blocks * bsize : ℕ) : ℚ),
      jsSub ((blocks * bsize : ℕ) : ℚ) ((bavail * bsize : ℕ) : ℚ),
      ((bavail * bsize : ℕ) : ℚ))
  | none => (0, 0, 0)

/-- The JSON values the route serializes. -/
inductive JVal where
  | num (q : ℚ)
  | str (s : String)
  | bool (b : Bool)
  | obj (fields : List (String × JVal))

/-- Top-level keys of a JSON object. -/
def jKeys : JVal → List String
  | .obj fields => fields.map (fun f => f.1)
  | _ => []

/-- Field lookup in a JSON object. -/
def jGet (j : JVal) (k : String) : Option JVal :=
  match j with
  | .obj fields => (firstPred (fun f => f.1 = k) fields).map (fun f => f.2)
  | _ => none

/-- Whether a response succeeded and its payload has key `k` at top level. -/
def respHasKey (r : Except String JVal) (k : String) : Bool :=
  match r with
  | .ok j => (jKeys j).contains k
  | .error _ => false

/-- Whether a response succeeded. -/
def respOk (r : Except String JVal) : Bool :=
  match r with
  | .ok _ => true
  | .error _ => false

/-- Numeric field at `payload.k1.k2` of a successful response. -/
def respNumAt (r : Except String JVal) (k1 k2 : String) : Option ℚ :=
  match r with
  | .ok j =>
    match jGet j k1 with
    | some o =>
      match jGet o k2 with
      | some (.num q) => some q
      | _ => none
    | none => none
  | .error _ => none

/-- `GET()` (lines 958–1011).  Every per-source failure is absorbed inside
the individual getters (each models its own `try`/`catch`), so no embedded
step of the assembly can throw; the route's top-level `catch` — which would
answer with the structured `{ error: … }` object and status 500 instead of a
partial snapshot — is therefore unreachable in the model, and `GET` always
produces the `ok` payload built from the getters. -/
def GET (s : SysState) : Except String JVal :=
  let memory := getHostMemory s
  let cpuInfo := getHostCPUInfo s
  .ok (.obj
    [("memory", .obj
        [("total", .num (memory.total : ℚ)),
         ("free", .num (memory.free : ℚ)),
         ("available", .num (memory.available : ℚ)),
         ("used", .num (memUsedVal s))]),
     ("cpu", .obj
        [("count", .num (cpuInfo.count : ℚ)),
         ("usage", .num (getHostCPUUsage s))]),
     ("disk", .obj
        [("total", .num (diskStatTriple s).1),
         ("used", .num (diskStatTriple s).2.1),
         ("free", .num (diskStatTriple s).2.2),
         ("usage", .num (getHostDiskUsage s))]),
     ("hostMounted", .bool (isHostMounted s))])

/-! ## Spec-side resolver cascade (spec §4.1), for claim C3 -/

/-- Acceptance of one tier as the spec words it: the target is a regular
file, its read succeeds, and the trimmed content is non-empty; the accepted
value is the trimmed content. -/
def specAccepts (s : SysState) (p : String) : Option String :=
  match s.fsNode p with
  | .file c true => if jsTrim c ≠ "" then some (jsTrim c) else none
  | _ => none

/-- The cascade as the spec words it (§4.1): the process-1 escape tier when
its mount point exists, else the bind-mounted host root when `proc`, `sys`
and `etc` all exist under it, else the container's own path — first
acceptance wins — and `fallbackProducer()`'s value unconditionally when all
three fail. -/
def resolveCascadeSpec (s : SysState) (path : String) (fb : String) : String :=
  match (if existsSync s "/proc/1/root" then specAccepts s ("/proc/1/root" ++ path) else none) with
  | some c => c
  | none =>
    match (if isHostMounted s then specAccepts s ("/host" ++ path) else none) with
    | some c => c
    | none =>
      match specAccepts s path with
      | some c => c
      | none => fb

/-- A guarded tier of the code equals the spec's acceptance: the `statSync`
and `readFileSync` throw-paths and the `isFile()` check land exactly on
"regular, readable, non-empty when trimmed". -/
theorem tierRead_eq_specAccepts (s : SysState) (p : String) :
    tierRead s p = specAccepts s p := by
  cases hn : s.fsNode p with
  | absent => simp [tierRead, specAccepts, existsSync, statSync, readFileSync, hn]
  | dir => simp [tierRead, specAccepts, existsSync, statSync, readFileSync, hn]
  | statError => simp [tierRead, specAccepts, existsSync, statSync, readFileSync, hn]
  | file c r =>
    cases r with
    | false => simp [tierRead, specAccepts, existsSync, statSync, readFileSync, hn]
    | true =>
      by_cases hc : jsTrim c = ""
      · simp [tierRead, specAccepts, existsSync, statSync, readFileSync, hn, hc]
      · have hc0 : c ≠ "" := by
          intro h0
          apply hc
          rw [h0]
          rfl
        simp [tierRead, specAccepts, existsSync, statSync, readFileSync, hn, hc, hc0]

/-- Claim C3: `readHostFile` tries the process-1 escape, the bind-mounted
host root and the container's own filesystem in that fixed order, accepting a
tier exactly when the target is a regular file with non-empty trimmed
content; a stat/read error at a tier only abandons that tier; and when no
tier accepts, the caller-supplied fallback value is returned unconditionally
(the function is total, hence never throws).  Stated as: the code's resolver
coincides with the spec-worded cascade on every state, path and fallback. -/
theorem c3_resolver_cascade (s : SysState) (path fb : String) :
    readHostFile s path fb = resolveCascadeSpec s path fb := by
  unfold readHostFile readHostFileOpt resolveCascadeSpec
  rw [tierRead_eq_specAccepts, tierRead_eq_specAccepts, tierRead_eq_specAccepts]
  cases h1 : (if existsSync s "/proc/1/root" then specAccepts s ("/proc/1/root" ++ path) else none) with
  | some c => simp
  | none =>
    cases h2 : (if isHostMounted s then specAccepts s ("/host" ++ path) else none) with
    | some c => simp
    | none => cases h3 : specAccepts s path <;> simp

/-! ## Concrete states for counterexamples and witnesses -/

/-- A state with nothing available: empty filesystem, no nsenter, one
container CPU, zeroed `os` numbers, no interfaces, failing statfs and df. -/
def baseSt : SysState :=
  { fsNode := fun _ => .absent,
    nsenterWhich := false,
    nsenterRun := fun _ => none,
    osCpus := ["Base CPU"],
    osTotalmem := 0,
    osFreemem := 0,
    osLoadavg := (0, 0, 0),
    netIfs := [],
    statfs := fun _ => none,
    dfOut := none }

/-- A state in which nsenter works and the host's `hostname -i` answers
`127.0.0.2` — a loopback address distinct from the one literal the route's
first strategy filters. -/
def loopbackHostnameSt : SysState :=
  { baseSt with
    fsNode := fun p => if p = "/proc/1" then .dir else .absent,
    nsenterWhich := true,
    nsenterRun := fun c => if c = cmdHostnameI then some "127.0.0.2" else none }

/-- A state whose only readable metric file is a `/proc/loadavg` reporting a
negative 1-minute load. -/
def negLoadSt : SysState :=
  { baseSt with
    fsNode := fun p => if p = "/proc/loadavg" then .file "-3 0 0" true else .absent }

/-- A state whose `/proc/meminfo` reports `MemAvailable` larger than
`MemTotal`. -/
def bigAvailSt : SysState :=
  { baseSt with
    fsNode := fun p =>
      if p = "/proc/meminfo" then
        .file "MemTotal: 100 kB\nMemAvailable: 200 kB\nMemFree: 50 kB" true
      else .absent }

/-- A `/proc/meminfo` state with ordinary values (for the C8 witness). -/
def plainMemSt : SysState :=
  { baseSt with
    fsNode := fun p =>
      if p = "/proc/meminfo" then
        .file "MemTotal: 200 kB\nMemAvailable: 50 kB\nMemFree: 40 kB" true
      else .absent }

/-- A routing table with its header row and one default-route entry on
`eth0`. -/
def routeC6 : String :=
  "Iface\tDestination\tGateway \tFlags\tRefCnt\tUse\tMetric\tMask\t\tMTU\tWindow\tIRTT\neth0\t00000000\t0102A8C0\t0003\t0\t0\t0\t00000000\t0\t0\t0"

/-- A neighbor table with its header row and one entry for `eth0` holding
`192.168.0.19`. -/
def arpC6 : String :=
  "IP address       HW type     Flags       HW address            Mask     Device\n192.168.0.19     0x1         0x2         aa:bb:cc:dd:ee:ff     *        eth0"

/-- The C6 scenario: no nsenter, empty forwarding trie, the above routing
and neighbor tables in the container's own filesystem. -/
def routeArpSt : SysState :=
  { baseSt with
    fsNode := fun p =>
      if p = "/proc/net/route" then .file routeC6 true
      else if p = "/proc/net/arp" then .file arpC6 true
      else if p = "/proc/net/fib_trie" then .file "" true
      else .absent }

/-- A `/proc/cpuinfo` text with one tab-separated model line and five
processor lines. -/
def cpuinfoC7 : String :=
  "model name\t: Test CPU X\nprocessor\t: 0\nprocessor\t: 1\nprocessor\t: 2\nprocessor\t: 3\nprocessor\t: 4"

/-- The C7 witness state: that text as the container's `/proc/cpuinfo`. -/
def cpuinfoSt : SysState :=
  { baseSt with
    fsNode := fun p => if p = "/proc/cpuinfo" then .file cpuinfoC7 true else .absent }

/-- A `/proc/stat` whose aggregate cpu line has every tick counter zero, plus
a loadavg of 0.10 for the fallback to land on. -/
def zeroTicksSt : SysState :=
  { baseSt with
    fsNode := fun p =>
      if p = "/proc/stat" then .file "cpu  0 0 0 0 0 0 0 0 0 0\ncpu0 0 0 0 0" true
      else if p = "/proc/loadavg" then .file "0.10 0.20 0.30 1/100 123" true
      else .absent }

/-! ## Claim C6 -/

/-- Claim C6: in a state where the nsenter strategies yield nothing, the
forwarding trie is empty, the routing table holds a header plus one
default-route (`00000000`) entry for the non-loopback interface `eth0`, and
the neighbor table holds an entry for `eth0` with address `192.168.0.19`, the
resolver returns exactly `"192.168.0.19"`. -/
theorem c6_route_neighbor_scenario : getHostIP routeArpSt = "192.168.0.19" := by decide

/-! ## Claim C4 -/

/-- Counterexample to claim C4 as stated: a successful snapshot that contains
no `network` and no `os` top-level field (here the all-absent state; the
route builds the same four keys for every state). -/
theorem c4_counterexample :
    respOk (GET baseSt) = true ∧
      respHasKey (GET baseSt) "network" = false ∧
      respHasKey (GET baseSt) "os" = false := by decide

/-- Claim C4 as amended: every snapshot returned by the successful branch has
exactly the top-level fields `memory`, `cpu`, `disk` and `hostMounted` —
`network` and `os` are never part of the response (the IP/OS helpers exist in
the file but `GET` does not call them). -/
theorem c4_amended_fields (s : SysState) :
    (GET s).map jKeys = Except.ok ["memory", "cpu", "disk", "hostMounted"] := rfl

/-! ## Claim C9 -/

/-- Claim C9: the retrieval operation never returns a partial snapshot — for
every input state, however many individual sources fail, it succeeds (the
structured-error branch is reserved for aggregation faults, of which the
assembly of independently-guarded getters has none) and the payload carries
all top-level fields with all their metric sub-fields populated. -/
theorem c9_no_partial_snapshot (s : SysState) :
    ∃ j, GET s = Except.ok j ∧
      jKeys j = ["memory", "cpu", "disk", "hostMounted"] ∧
      (jGet j "memory").map jKeys = some ["total", "free", "available", "used"] ∧
      (jGet j "cpu").map jKeys = some ["count", "usage"] ∧
      (jGet j "disk").map jKeys = some ["total", "used", "free", "usage"] :=
  ⟨_, rfl, rfl, rfl, rfl, rfl⟩

/-! ## Claim C5 -/

/-- Counterexample to claim C5 as stated: with a synthetic meminfo reporting
`MemAvailable` (200 kB) above `MemTotal` (100 kB), the snapshot's
`memory.used` is the negative number −102400 and `available > total`. -/
theorem c5_counterexample :
    respNumAt (GET bigAvailSt) "memory" "used" = some (-102400) ∧
      memUsedVal bigAvailSt < 0 ∧
      ((getHostMemory bigAvailSt).total : ℚ) < ((getHostMemory bigAvailSt).available : ℚ) := by
  decide

/-- Claim C5 as amended: `total`, `free` and `available` are always
non-negative (each is a parsed digit run scaled to bytes or a container
total), and `used = total - available` is non-negative exactly when the
resolved `available` does not exceed the resolved `total` — the code never
re-establishes `available ≤ total` for inconsistent inputs. -/
theorem c5_amended_memory_invariant (s : SysState) :
    0 ≤ ((getHostMemory s).total : ℚ) ∧
      0 ≤ ((getHostMemory s).free : ℚ) ∧
      0 ≤ ((getHostMemory s).available : ℚ) ∧
      (0 ≤ memUsedVal s ↔
        ((getHostMemory s).available : ℚ) ≤ ((getHostMemory s).total : ℚ)) := by
  refine ⟨Nat.cast_nonneg _, Nat.cast_nonneg _, Nat.cast_nonneg _, ?_⟩
  rw [memUsedVal, jsSub_eq]
  exact sub_nonneg

/-! ## Claim C8 -/

/-- Claim C8: whenever the memory parser extracts kB values for both
`MemTotal` and `MemAvailable`, the snapshot's `memory.used` is exactly their
byte difference `total − available`. -/
theorem c8_used_eq_total_sub_available (s : SysState) (tv av : ℕ)
    (ht : memParsedField s "MemTotal" = some tv)
    (ha : memParsedField s "MemAvailable" = some av) :
    respNumAt (GET s) "memory" "used" = some ((tv * 1024 : ℚ) - (av * 1024 : ℚ)) := by
  have hresp : respNumAt (GET s) "memory" "used" = some (memUsedVal s) := rfl
  rw [hresp, memUsedVal, jsSub_eq, getHostMemory]
  rw [ht, ha]
  simp only [Option.map_some', Option.getD_some]
  push_cast
  ring_nf

/-- Witness for C8 at a concrete meminfo (`MemTotal: 200 kB`,
`MemAvailable: 50 kB`). -/
theorem c8_used_eq_total_sub_available_witness :
    respNumAt (GET plainMemSt) "memory" "used" =
      some (((200 : ℕ) * 1024 : ℚ) - ((50 : ℕ) * 1024 : ℚ)) :=
  c8_used_eq_total_sub_available plainMemSt 200 50 (by decide) (by decide)

/-! ## Claim C10 -/

/-- Claim C10: when the aggregate cpu line of the resolved `/proc/stat`
parses to all-zero tick counters, the `total > 0` guard keeps the division
branch unreachable (no division by zero is performed) and `getHostCPUUsage`
returns exactly the load-average fallback value. -/
theorem c10_zero_ticks_fallback (s : SysState) (line : String)
    (hline : findCpuLine s = some line)
    (h1 : cpuTickAt line 1 = 0) (h2 : cpuTickAt line 2 = 0)
    (h3 : cpuTickAt line 3 = 0) (h4 : cpuTickAt line 4 = 0)
    (h5 : cpuTickAt line 5 = 0) (h6 : cpuTickAt line 6 = 0)
    (h7 : cpuTickAt line 7 = 0) (h8 : cpuTickAt line 8 = 0) :
    getHostCPUUsage s = cpuLoadFallback s := by
  have hzero : cpuStatValue s = none := by
    rw [cpuStatValue, hline]
    by_cases hl : 5 ≤ (splitWsJS (jsTrim line)).length
    · simp only [if_pos hl, h1, h2, h3, h4, h5, h6, h7, h8, jsAdd_eq, add_zero, zero_add]
      norm_num
    · simp only [if_neg hl]
  rw [getHostCPUUsage, hzero]
  rfl

/-- Witness for C10 at a concrete all-zero `/proc/stat`. -/
theorem c10_zero_ticks_fallback_witness :
    getHostCPUUsage zeroTicksSt = cpuLoadFallback zeroTicksSt :=
  c10_zero_ticks_fallback zeroTicksSt "cpu  0 0 0 0 0 0 0 0 0 0" (by decide) (by decide)
    (by decide) (by decide) (by decide) (by decide) (by decide) (by decide) (by decide)

/-! ## Claim C2 -/

/-- Counterexample to claim C2 as stated: with `/proc/stat` unavailable and a
synthetic `/proc/loadavg` of `-3 0 0`, `getHostCPUUsage` returns −300, far
below the claimed interval's lower bound (the fallback only caps at 100). -/
theorem c2_counterexample :
    getHostCPUUsage negLoadSt = -300 ∧ ¬ (0 ≤ getHostCPUUsage negLoadSt) := by decide

/-- `jsMin a b ≤ b`. -/
theorem jsMin_le_right (a b : ℚ) : jsMin a b ≤ b := by
  rw [jsMin]
  split_ifs with h
  · exact h
  · exact le_refl b

/-- `jsMin` of two non-negative numbers is non-negative. -/
theorem jsMin_nonneg (a b : ℚ) (ha : 0 ≤ a) (hb : 0 ≤ b) : 0 ≤ jsMin a b := by
  rw [jsMin]
  split_ifs <;> assumption

/-- `0 ≤ jsMax a 0`. -/
theorem jsMax_zero_nonneg (a : ℚ) : 0 ≤ jsMax a 0 := by
  rw [jsMax]
  split_ifs with h
  · exact le_refl 0
  · exact le_of_not_le h

/-- The `/proc/stat` branch, when it returns, is already clamped into
`[0, 100]`. -/
theorem cpuStatValue_bounds (s : SysState) (v : ℚ) (h : cpuStatValue s = some v) :
    0 ≤ v ∧ v ≤ 100 := by
  rw [cpuStatValue] at h
  split at h
  · exact absurd h (by simp)
  · split at h
    · simp only [] at h
      split at h
      · have hv := (Option.some.injEq _ _).mp h
        subst hv
        exact ⟨jsMin_nonneg _ _ (jsMax_zero_nonneg _) (by norm_num), jsMin_le_right _ _⟩
      · exact absurd h (by simp)
    · exact absurd h (by simp)

/-- Claim C2 as amended: under the two conditions that keep the JS arithmetic
free of NaN — a positive resolved core count (true whenever the container
reports at least one CPU) and a statfs total that is positive when statfs
succeeds — the CPU usage value never exceeds 100 and is non-negative whenever
the stat branch is taken or the parsed 1-minute load average is non-negative;
the disk usage value always lies in `[0, 100]`.  (The lower CPU bound cannot
be unconditional: the load-average fallback applies no lower clamp, see the
counterexample.) -/
theorem c2_amended_usage_bounds (s : SysState)
    (_hcpu : 0 < (getHostCPUInfo s).count)
    (_hdisk : diskStatTotalPos s = true) :
    getHostCPUUsage s ≤ 100 ∧
      (0 ≤ (getHostLoadAvg s).1 → 0 ≤ getHostCPUUsage s) ∧
      0 ≤ getHostDiskUsage s ∧ getHostDiskUsage s ≤ 100 := by
  have hfb_le : cpuLoadFallback s ≤ 100 := jsMin_le_right _ _
  have hfb_nn : 0 ≤ (getHostLoadAvg s).1 → 0 ≤ cpuLoadFallback s := by
    intro hload
    rw [cpuLoadFallback]
    refine jsMin_nonneg _ _ ?_ (by norm_num)
    rw [jsMul_eq, jsDiv_eq]
    have hc : (0 : ℚ) ≤ ((getHostCPUInfo s).count : ℚ) := Nat.cast_nonneg _
    exact mul_nonneg (div_nonneg hload hc) (by norm_num)
  have hcpu_bounds : getHostCPUUsage s ≤ 100 ∧
      (0 ≤ (getHostLoadAvg s).1 → 0 ≤ getHostCPUUsage s) := by
    rw [getHostCPUUsage]
    cases hsv : cpuStatValue s with
    | none => exact ⟨hfb_le, hfb_nn⟩
    | some v =>
      have hb := cpuStatValue_bounds s v hsv
      exact ⟨hb.2, fun _ => hb.1⟩
  have hdisk_cases : getHostDiskUsage s = 0 ∨
      ∃ x, getHostDiskUsage s = jsMin (jsMax x 0) 100 := by
    rw [getHostDiskUsage]
    split
    · right; exact ⟨_, rfl⟩
    · split
      · simp only []
        split_ifs
        · split
          · right; exact ⟨_, rfl⟩
          · left; rfl
        · left; rfl
        · left; rfl
      · left; rfl
  have hdisk_bounds : 0 ≤ getHostDiskUsage s ∧ getHostDiskUsage s ≤ 100 := by
    rcases hdisk_cases with h0 | ⟨x, hx⟩
    · rw [h0]
      norm_num
    · rw [hx]
      exact ⟨jsMin_nonneg _ _ (jsMax_zero_nonneg _) (by norm_num), jsMin_le_right _ _⟩
  exact ⟨hcpu_bounds.1, hcpu_bounds.2, hdisk_bounds.1, hdisk_bounds.2⟩

/-- Witness for the amended C2 at the all-zero-ticks state (core count 1,
load 0.10, no statfs): both hypotheses hold and all four bounds evaluate. -/
theorem c2_amended_usage_bounds_witness :
    getHostCPUUsage zeroTicksSt ≤ 100 ∧
      (0 ≤ (getHostLoadAvg zeroTicksSt).1 → 0 ≤ getHostCPUUsage zeroTicksSt) ∧
      0 ≤ getHostDiskUsage zeroTicksSt ∧ getHostDiskUsage zeroTicksSt ≤ 100 :=
  c2_amended_usage_bounds zeroTicksSt (by decide) (by decide)

/-! ## Claim C7 -/

/-- Concatenation acts on the underlying character lists. -/
theorem strData_append (a b : String) : (a ++ b).data = a.data ++ b.data := by
  cases a
  cases b
  rfl

/-- On a line of the shape `model name\t: M`, the capture of `/[:=]\s*(.+)/`
starts right after the colon. -/
theorem afterColonEq_model_line (M : String) :
    afterColonEq ("model name\t: " ++ M).data = some (' ' :: M.data) := by
  rw [strData_append]
  rfl

/-- A leading space disappears under `jsTrim`. -/
theorem jsTrim_cons_space (cs : List Char) :
    jsTrim (String.mk (' ' :: cs)) = jsTrim (String.mk cs) := rfl

/-- Model extraction from a tab-separated `model name` line yields the
trimmed model string. -/
theorem computeModel_tab_line (M : String) (hMt : jsTrim M = M) :
    computeModel (some ("model name\t: " ++ M)) = M := by
  rw [computeModel, afterColonEq_model_line]
  show jsTrim (String.mk (' ' :: M.data)) = M
  rw [jsTrim_cons_space]
  exact hMt

/-- The processor count is the number of processor-pattern lines whenever
that number is non-zero. -/
theorem procCount_of_lines (s : SysState) (lines : List String)
    (h : (processorLinesOf lines).length = 5) : procCount s lines = 5 := by
  rw [procCount, h]
  norm_num

/-- Claim C7: on every resolved cpuinfo text whose selected model line is the
tab-separated `model name\t: M` (with `M` trimmed and non-empty) and which
has exactly five processor-pattern lines, the parser returns model `M` and
count 5. -/
theorem c7_cpuinfo_parse (s : SysState) (text M : String)
    (hres : readHostFile s "/proc/cpuinfo" (cpuinfoFallback s) = text)
    (hne : text ≠ "")
    (hM : findModelLine (splitNl text) = some ("model name\t: " ++ M))
    (hMt : jsTrim M = M) (hM0 : M ≠ "")
    (hcount : (processorLinesOf (splitNl text)).length = 5) :
    getHostCPUInfo s = { model := M, count := 5 } := by
  rw [getHostCPUInfo, hres, if_pos hne]
  simp only [hM, computeModel_tab_line M hMt, procCount_of_lines s _ hcount]
  simp [hM0]

/-- Witness for C7 at a concrete five-processor cpuinfo text. -/
theorem c7_cpuinfo_parse_witness :
    getHostCPUInfo cpuinfoSt = { model := "Test CPU X", count := 5 } :=
  c7_cpuinfo_parse cpuinfoSt cpuinfoC7 "Test CPU X" (by decide) (by decide) (by decide)
    (by decide) (by decide) (by decide)

/-! ## Claim C1 -/

/-- A found element belongs to the list. -/
theorem firstPred_mem {α} (p : α → Bool) :
    ∀ (l : List α) (a : α), firstPred p l = some a → a ∈ l := by
  intro l
  induction l with
  | nil => intro a h; cases h
  | cons b t ih =>
    intro a h
    rw [firstPred] at h
    split_ifs at h with hb
    · rw [← (Option.some.injEq _ _).mp h]
      exact List.mem_cons_self b t
    · exact List.mem_cons_of_mem b (ih a h)

/-- A property of every `some` image of `f` holds of a `firstSome` result. -/
theorem firstSome_prop {α β} (P : β → Prop) (f : α → Option β)
    (hf : ∀ a b, f a = some b → P b) :
    ∀ (l : List α) (r : β), firstSome f l = some r → P r := by
  intro l
  induction l with
  | nil => intro r h; cases h
  | cons a t ih =>
    intro r h
    rw [firstSome] at h
    cases ha : f a with
    | some b =>
      rw [ha] at h
      have hbr : b = r := (Option.some.injEq _ _).mp h
      subst hbr
      exact hf a b ha
    | none => rw [ha] at h; exact ih r h

/-- An invariant preserved by every fold step holds of every member of the
fold's result. -/
theorem foldl_preserve {α β} (P : β → Prop) (g : List β → α → List β)
    (hg : ∀ acc a x, (∀ y ∈ acc, P y) → x ∈ g acc a → P x) :
    ∀ (l : List α) (acc : List β), (∀ y ∈ acc, P y) → ∀ x ∈ List.foldl g acc l, P x := by
  intro l
  induction l with
  | nil => intro acc hacc x hx; exact hacc x hx
  | cons a t ih =>
    intro acc hacc x hx
    rw [List.foldl_cons] at hx
    refine ih (g acc a) ?_ x hx
    intro y hy
    exact hg acc a y hacc hy

/-- The chosen address (private-preferred or first) is a member of the
collected list. -/
theorem chooseIP_mem (ips : List String) (r : String) (h : chooseIP ips = some r) :
    r ∈ ips := by
  cases ips with
  | nil => cases h
  | cons top rest =>
    rw [chooseIP] at h
    cases hp : privateOf (top :: rest) with
    | some p =>
      rw [hp] at h
      simp only [Option.getD_some] at h
      rw [← (Option.some.injEq _ _).mp h]
      exact firstPred_mem _ _ _ hp
    | none =>
      rw [hp] at h
      simp only [Option.getD_none] at h
      rw [← (Option.some.injEq _ _).mp h]
      exact List.mem_cons_self top rest

/-- The method-1 acceptance implies the Docker filter. -/
theorem fibAccept_notDocker (ip : String) (h : fibAccept ip = true) :
    isDockerIP ip = false := by
  cases hq : isDockerIP ip with
  | false => rfl
  | true =>
    rw [fibAccept, decide_eq_true_eq] at h
    exact absurd hq h.2.2.2

/-- No address collected from the forwarding trie is Docker-range. -/
theorem fibCollect_notDocker (ft : String) :
    ∀ x ∈ fibCollect ft, isDockerIP x = false := by
  refine foldl_preserve _ _ ?_ _ [] (by intro y hy; cases hy)
  intro acc line x hacc hxin
  refine foldl_preserve _ _ ?_ _ acc hacc x hxin
  intro acc2 ip y hacc2 hyin
  by_cases hc : fibAccept ip ∧ ip ∉ acc2
  · rw [if_pos hc] at hyin
    rcases List.mem_append.mp hyin with hy1 | hy2
    · exact hacc2 y hy1
    · rw [List.mem_singleton.mp hy2]
      exact fibAccept_notDocker ip hc.1
  · rw [if_neg hc] at hyin
    exact hacc2 y hyin

/-- Method 1 never returns a Docker-range address. -/
theorem method1_notDocker (ft : String) (r : String) (h : method1 ft = some r) :
    isDockerIP r = false := by
  rw [method1] at h
  split_ifs at h with hft
  · exact fibCollect_notDocker ft r (chooseIP_mem _ _ h)

/-- Method 0 never returns a Docker-range address. -/
theorem method0_notDocker (s : SysState) (r : String) (h : method0 s = some r) :
    isDockerIP r = false := by
  rw [method0] at h
  split at h
  · cases h
  · simp only [] at h
    split_ifs at h with h1 h2 h3
    have hr := (Option.some.injEq _ _).mp h
    subst hr
    simpa using h3

/-- Method 0.1 never returns a Docker-range address. -/
theorem method01_notDocker (s : SysState) (r : String) (h : method01 s = some r) :
    isDockerIP r = false := by
  rw [method01] at h
  split at h
  · cases h
  · split_ifs at h with h1
    · split at h
      · split_ifs at h with h2
        have hr := (Option.some.injEq _ _).mp h
        subst hr
        simpa using h2.2
      · cases h

/-- The ARP cross-reference of method 2 never returns a Docker-range
address. -/
theorem method22_notDocker (s : SysState) (mi : String) (mac : Option String) (r : String)
    (h : method22 s mi mac = some r) : isDockerIP r = false := by
  rw [method22] at h
  split_ifs at h with harp
  refine firstSome_prop (fun b => isDockerIP b = false) _ ?_ _ _ h
  intro line b hb
  simp only [] at hb
  split_ifs at hb with h1 h2 h3 h4 h5
  have hbr := (Option.some.injEq _ _).mp hb
  subst hbr
  simpa using h5.2.2

/-- The route-hex acceptance of method 2.3 implies the Docker filter for
every collected address. -/
theorem collect23_notDocker (lines : List String) (mi : String) :
    ∀ x ∈ collect23 lines mi, isDockerIP x = false := by
  refine foldl_preserve _ _ ?_ _ [] (by intro y hy; cases hy)
  intro acc line x hacc hxin
  simp only [] at hxin
  by_cases hline : 3 ≤ (splitWsJS (jsTrim line)).length ∧
      ((splitWsJS (jsTrim line)).get? 0).getD "" = mi
  · rw [if_pos hline] at hxin
    refine foldl_preserve _ _ ?_ _ acc hacc x hxin
    intro acc2 col y hacc2 hyin
    simp only [] at hyin
    split_ifs at hyin with g1 g2 g3
    · exact hacc2 y hyin
    · rcases List.mem_append.mp hyin with hy1 | hy2
      · exact hacc2 y hy1
      · rw [List.mem_singleton.mp hy2]
        simpa using g3.2.2.1
    · exact hacc2 y hyin
    · exact hacc2 y hyin
  · rw [if_neg hline] at hxin
    exact hacc x hxin

/-- Method 2.3 never returns a Docker-range address. -/
theorem method23_notDocker (lines : List String) (mi : String) (r : String)
    (h : method23 lines mi = some r) : isDockerIP r = false :=
  collect23_notDocker lines mi r (chooseIP_mem _ _ h)

/-- The per-interface fib-trie scan of method 2.3 never returns a
Docker-range address. -/
theorem method23b_notDocker (s : SysState) (ft mi : String) (r : String)
    (h : method23b s ft mi = some r) : isDockerIP r = false := by
  rw [method23b] at h
  split_ifs at h with hft
  refine firstSome_prop (fun b => isDockerIP b = false) _ ?_ _ _ h
  intro line b hb
  refine firstSome_prop (fun x => isDockerIP x = false) _ ?_ _ _ hb
  intro ip x hx
  split_ifs at hx with g1
  have hxe := (Option.some.injEq _ _).mp hx
  subst hxe
  simpa using g1.2.2.1

/-- Method 2 never returns a Docker-range address. -/
theorem method2_notDocker (s : SysState) (ft : String) (r : String)
    (h : method2 s ft = some r) : isDockerIP r = false := by
  rw [method2] at h
  split_ifs at h with hroute
  split at h
  · cases h
  · split at h
    · exact method22_notDocker s _ _ r (by rw [← (Option.some.injEq _ _).mp h]; assumption)
    · split at h
      · exact method23_notDocker _ _ r (by rw [← (Option.some.injEq _ _).mp h]; assumption)
      · exact method23b_notDocker s ft _ r h

/-- Method 3 never returns a Docker-range address. -/
theorem method3_notDocker (s : SysState) (r : String) (h : method3 s = some r) :
    isDockerIP r = false := by
  rw [method3] at h
  split_ifs at h with harp
  have hmem := chooseIP_mem _ _ h
  revert hmem
  refine fun hmem => foldl_preserve (fun y => isDockerIP y = false) _ ?_ _ []
    (by intro y hy; cases hy) r hmem
  intro acc line x hacc hxin
  simp only [] at hxin
  split_ifs at hxin with g1 g2
  · rcases List.mem_append.mp hxin with hy1 | hy2
    · exact hacc x hy1
    · rw [List.mem_singleton.mp hy2]
      simpa using g2.2.2.2.2
  · exact hacc x hxin
  · exact hacc x hxin

/-- The container-interface fallback never returns a Docker-range address. -/
theorem fallbackIP_notDocker (s : SysState) (r : String) (h : fallbackIP s = some r) :
    isDockerIP r = false := by
  rw [fallbackIP] at h
  refine firstSome_prop (fun b => isDockerIP b = false) _ ?_ _ _ h
  intro nif b hb
  refine firstSome_prop (fun x => isDockerIP x = false) _ ?_ _ _ hb
  intro addr x hx
  split_ifs at hx with g1 g2
  have hxe := (Option.some.injEq _ _).mp hx
  subst hxe
  simpa using g2.1

/-- No strategy of the cascade (methods 0 through 3) can produce a
Docker-range address. -/
theorem triedIP_notDocker (s : SysState) (r : String) (h : triedIP s = some r) :
    isDockerIP r = false := by
  rw [triedIP] at h
  cases h0 : method0 s with
  | some ip =>
    rw [h0] at h
    exact method0_notDocker s r (by rw [h0, (Option.some.injEq _ _).mp h])
  | none =>
    rw [h0] at h
    cases h1 : method01 s with
    | some ip =>
      rw [h1] at h
      exact method01_notDocker s r (by rw [h1, (Option.some.injEq _ _).mp h])
    | none =>
      rw [h1] at h
      cases h2 : method1 (fibTrieContent s) with
      | some ip =>
        rw [h2] at h
        exact method1_notDocker _ r (by rw [h2, (Option.some.injEq _ _).mp h])
      | none =>
        rw [h2] at h
        cases h3 : method2 s (fibTrieContent s) with
        | some ip =>
          rw [h3] at h
          exact method2_notDocker s _ r (by rw [h3, (Option.some.injEq _ _).mp h])
        | none =>
          rw [h3] at h
          exact method3_notDocker s r h

/-- The code's Docker filter refutes membership in the spec's
172.16.0.0/12 bridge range. -/
theorem specBridge_of_notDocker (ip : String) (h : isDockerIP ip = false) :
    specBridgeRange ip = false := by
  rw [specBridgeRange]
  rw [isDockerIP] at h
  cases hq : isDottedQuad ip with
  | false => rw [Bool.false_and]
  | true =>
    rw [Bool.true_and]
    cases ha : jsParseInt ((jsSplitChar '.' ip).getD 0 "") with
    | none =>
      rw [ha] at h
    | some a =>
      rw [ha] at h
      cases hb : jsParseInt ((jsSplitChar '.' ip).getD 1 "") with
      | none =>
        rw [hb] at h
      | some b =>
        rw [hb] at h
        exact h

/-- Counterexample to claim C1 as stated: when the host's `hostname -i`
answers `127.0.0.2`, the first strategy returns it although it lies in
127.0.0.0/8 — that strategy only rejects the exact string `127.0.0.1`. -/
theorem c1_counterexample :
    getHostIP loopbackHostnameSt = "127.0.0.2" ∧
      specLoopbackRange "127.0.0.2" = true := by decide

/-- Claim C1 as amended: across all six strategies and the container
fallback, the resolver never returns an address in 172.16.0.0/12 — every
return site applies the Docker-range filter — but the loopback /
`0.0.0.0` / `255.255.255.255` exclusions are NOT enforced by every strategy
(several only reject the literal `127.0.0.1`; see the counterexample), so
only the bridge-range part of the claimed filter holds globally. -/
theorem c1_amended_no_bridge_range (s : SysState) :
    isDockerIP (getHostIP s) = false ∧ specBridgeRange (getHostIP s) = false := by
  have hnd : isDockerIP (getHostIP s) = false := by
    rw [getHostIP]
    cases ht : triedIP s with
    | some ip => exact triedIP_notDocker s ip ht
    | none =>
      cases hfb : fallbackIP s with
      | some ip =>
        simp only [Option.getD_some]
        exact fallbackIP_notDocker s ip hfb
      | none =>
        simp only [Option.getD_none]
        decide
  exact ⟨hnd, specBridge_of_notDocker _ hnd⟩
